import Mathlib

/-!
Shallow embedding of `taurus/engine/check_model_consistency.py` and of the
`MonitorDispatcher` check-dispatch framework of `taurus.monitoring`, together
with theorems settling the frozen claims about them.

The reconciliation engine diffs "engine" (authoritative, MySQL) metric rows
against "dynamodb" (mirror) metric rows, producing findings `(caption, detail)`
classified as warnings or errors, and derives an exit code from a strictness
flag.  Detail strings in the Python enumerate one bracketed line per record;
here a finding's detail is kept structurally, as the list of enumerated lines
(`FindingLine`), each carrying the record's `uid` and the other stringified
fields of its line, which is the information the Python interpolates into the
joined detail string.
-/

namespace CheckModelConsistency

/-- Values of `htmengine.repository.queries.MetricStatus` used by the script. -/
inductive MetricStatus
  | ACTIVE
  | ERROR
  | UNMONITORED
  | CREATE_PENDING
  | PENDING_DATA
  deriving DecidableEq, Repr

/-- The `metricSpec.userInfo` object nested in an engine row's serialized
`parameters` payload. -/
structure UserInfo where
  metricType : String
  metricTypeName : String
  symbol : String
  deriving DecidableEq, Repr

/-- A metric row from the Taurus Engine repository (sqlalchemy RowProxy).
`parameters` models the serialized JSON payload after the two-step access
`json.loads(row["parameters"])["metricSpec"]["userInfo"]`: `some u` when the
payload deserializes and contains the nested structure, `none` when it is
malformed (in which case the Python `json.loads`/subscript raises). -/
structure EngineMetric where
  uid : String
  name : String
  status : MetricStatus
  message : String
  server : String
  parameters : Option UserInfo
  deriving DecidableEq, Repr

/-- A metric row from the dynamodb `taurus.metric.<environment>` table. -/
structure DynamoMetric where
  uid : String
  name : String
  display_name : String
  metricType : String
  metricTypeName : String
  symbol : String
  deriving DecidableEq, Repr

/-- One line of a finding's joined detail string: the `uid` of the record the
line is about, and the remaining stringified fields enumerated on that line. -/
structure FindingLine where
  uid : String
  rest : List String
  deriving DecidableEq, Repr

/-- A finding `(caption, details)`, with the detail kept as its list of
enumerated lines. -/
structure Finding where
  caption : String
  lines : List FindingLine
  deriving DecidableEq, Repr

/-- Keys of the Python dict `{obj[key]: obj for obj in rows}`: each distinct
key appears once.  (CPython keeps first-occurrence order; set iteration order
is arbitrary anyway, so the deduplication order here is immaterial.) -/
def dictKeys {α : Type} (key : α → String) (rows : List α) : List String :=
  (rows.map key).dedup

/-- Lookup in the Python dict `{obj[key]: obj for obj in rows}`: for a
duplicated key the comprehension keeps the last row. -/
def dictGet {α : Type} (key : α → String) (rows : List α) (uid : String) :
    Option α :=
  rows.reverse.find? (fun r => key r = uid)

/-- Rows of `engineMetrics` with `status == MetricStatus.ERROR`. -/
def errorModelsOf (engineMetrics : List EngineMetric) : List EngineMetric :=
  engineMetrics.filter (fun obj => obj.status = MetricStatus.ERROR)

/-- Embeds `_checkFailedModels`: one WARNING finding aggregating all rows in ERROR
state, none when there is no such row; never any error finding. -/
def checkFailedModels (engineMetrics : List EngineMetric) (verbose : Bool) :
    List Finding × List Finding :=
  let errorModels := errorModelsOf engineMetrics
  let warnings :=
    if errorModels.isEmpty then []
    else
      [{ caption := toString errorModels.length ++ " models in ERROR state",
         lines := errorModels.map fun obj =>
           { uid := obj.uid, rest := [obj.name, obj.message] } }]
  (warnings, [])

/-- The `activeModelsMap` comprehension's row filter: rows with
`status == MetricStatus.ACTIVE`. -/
def activeModelsOf (engineMetrics : List EngineMetric) : List EngineMetric :=
  engineMetrics.filter (fun obj => obj.status = MetricStatus.ACTIVE)

/-- Embeds `set(activeModelsMap)`: uids of ACTIVE engine rows. -/
def activeUids (engineMetrics : List EngineMetric) : List String :=
  dictKeys EngineMetric.uid (activeModelsOf engineMetrics)

/-- Embeds `set(dynamodbModelsMap)`: uids of dynamodb rows. -/
def dynamoUids (dynamodbMetrics : List DynamoMetric) : List String :=
  dictKeys DynamoMetric.uid dynamodbMetrics

/-- Embeds `inRepositoryButNotInDynamodb = set(activeModelsMap) - set(dynamodbModelsMap)`. -/
def inRepositoryButNotInDynamodb (engineMetrics : List EngineMetric)
    (dynamodbMetrics : List DynamoMetric) : List String :=
  (activeUids engineMetrics).filter
    (fun uid => uid ∉ dynamoUids dynamodbMetrics)

/-- Embeds `inDynamodbButNotInRepository = set(dynamodbModelsMap) - set(activeModelsMap)`. -/
def inDynamodbButNotInRepository (engineMetrics : List EngineMetric)
    (dynamodbMetrics : List DynamoMetric) : List String :=
  (dynamoUids dynamodbMetrics).filter
    (fun uid => uid ∉ activeUids engineMetrics)

/-- The active-but-missing ERROR finding of `_checkModelParity`, emitted only
when `inRepositoryButNotInDynamodb` is non-empty; each detail line is
`[str(uid), str(activeModelsMap[uid]["name"])]`. -/
def missingFinding (engineMetrics : List EngineMetric)
    (dynamodbMetrics : List DynamoMetric) : List Finding :=
  let diff := inRepositoryButNotInDynamodb engineMetrics dynamodbMetrics
  if diff.isEmpty then []
  else
    [{ caption := "There are " ++ toString diff.length ++
         " active models in Taurus Engine repository that are not in DynamoDB",
       lines := diff.filterMap fun uid =>
         (dictGet EngineMetric.uid (activeModelsOf engineMetrics) uid).map
           fun obj => { uid := uid, rest := [obj.name] } }]

/-- The orphaned ERROR finding of `_checkModelParity`, emitted only when
`inDynamodbButNotInRepository` is non-empty; each detail line is
`[str(uid), str(dynamodbModelsMap[uid]["name"])]`. -/
def orphanFinding (engineMetrics : List EngineMetric)
    (dynamodbMetrics : List DynamoMetric) : List Finding :=
  let diff := inDynamodbButNotInRepository engineMetrics dynamodbMetrics
  if diff.isEmpty then []
  else
    [{ caption := "There are " ++ toString diff.length ++
         " model UIDs in DynamoDB that are not among active models in " ++
         "Taurus Engine repository",
       lines := diff.filterMap fun uid =>
         (dictGet DynamoMetric.uid dynamodbMetrics uid).map
           fun obj => { uid := uid, rest := [obj.name] } }]

/-- Embeds `_checkModelParity`: no warnings; the two set-difference error findings. -/
def checkModelParity (engineMetrics : List EngineMetric)
    (dynamodbMetrics : List DynamoMetric) (verbose : Bool) :
    List Finding × List Finding :=
  ([], missingFinding engineMetrics dynamodbMetrics ++
       orphanFinding engineMetrics dynamodbMetrics)

/-- The `diffs` list accumulated by `_checkModelAttributeParity` for one
`uid` of the intersection: the five field comparisons, in source order
(`name`, `display_name`, then the three payload fields), each contributing a
`(fieldName, engineValue, dynamodbValue)` triple when the sides differ.
`userInfo` is the already-deserialized `parameters` payload of the engine
row. -/
def diffsOf (activeModel : EngineMetric) (userInfo : UserInfo)
    (dynamodbModel : DynamoMetric) : List (String × String × String) :=
  (if activeModel.name ≠ dynamodbModel.name then
    [("name", activeModel.name, dynamodbModel.name)] else []) ++
  (if activeModel.server ≠ dynamodbModel.display_name then
    [("display_name", activeModel.server, dynamodbModel.display_name)] else []) ++
  (if userInfo.metricType ≠ dynamodbModel.metricType then
    [("metricType", userInfo.metricType, dynamodbModel.metricType)] else []) ++
  (if userInfo.metricTypeName ≠ dynamodbModel.metricTypeName then
    [("metricTypeName", userInfo.metricTypeName, dynamodbModel.metricTypeName)]
   else []) ++
  (if userInfo.symbol ≠ dynamodbModel.symbol then
    [("symbol", userInfo.symbol, dynamodbModel.symbol)] else [])

/-- One iteration of the `for uid in commonMetricIds` loop body:
`json.loads(activeModel["parameters"])` raises on a malformed payload
(modelled as `Except.error`), otherwise the iteration yields the `diffs`
list for this pair of rows. -/
def compareModels (activeModel : EngineMetric) (dynamodbModel : DynamoMetric) :
    Except String (List (String × String × String)) :=
  match activeModel.parameters with
  | none => Except.error
      ("unable to deserialize parameters of model " ++ activeModel.uid)
  | some userInfo => Except.ok (diffsOf activeModel userInfo dynamodbModel)

/-- Embeds `commonMetricIds = set(dynamodbModelsMap) & set(activeModelsMap)`. -/
def commonMetricIds (engineMetrics : List EngineMetric)
    (dynamodbMetrics : List DynamoMetric) : List String :=
  (dynamoUids dynamodbMetrics).filter (fun uid => uid ∈ activeUids engineMetrics)

/-- The intersection uids paired with their rows,
`(uid, activeModelsMap[uid], dynamodbModelsMap[uid])`.  Both lookups succeed
for every uid of the intersection, so the `filterMap` drops nothing. -/
def commonPairs (engineMetrics : List EngineMetric)
    (dynamodbMetrics : List DynamoMetric) :
    List (String × EngineMetric × DynamoMetric) :=
  (commonMetricIds engineMetrics dynamodbMetrics).filterMap fun uid =>
    match dictGet EngineMetric.uid (activeModelsOf engineMetrics) uid,
          dictGet DynamoMetric.uid dynamodbMetrics uid with
    | some a, some d => some (uid, a, d)
    | _, _ => none

/-- The `mismatches` list built by the `for uid in commonMetricIds` loop:
each uid whose `diffs` is non-empty contributes `(uid, diffs)`; the first
malformed payload aborts the whole comparison (the Python exception
propagates). -/
def collectMismatches :
    List (String × EngineMetric × DynamoMetric) →
    Except String (List (String × List (String × String × String)))
  | [] => Except.ok []
  | (uid, a, d) :: rest =>
    match compareModels a d with
    | Except.error msg => Except.error msg
    | Except.ok diffs =>
      match collectMismatches rest with
      | Except.error msg => Except.error msg
      | Except.ok tail =>
        Except.ok (if diffs.isEmpty then tail else (uid, diffs) :: tail)

/-- Characterization of one loop iteration's contribution to `mismatches`
(used by the proofs): `none` when the payload is malformed (the iteration
raises instead) or when the five fields agree, `some (uid, diffs)` otherwise. -/
def mismatchOf (p : String × EngineMetric × DynamoMetric) :
    Option (String × List (String × String × String)) :=
  match p.2.1.parameters with
  | none => none
  | some u =>
    if (diffsOf p.2.1 u p.2.2).isEmpty then none
    else some (p.1, diffsOf p.2.1 u p.2.2)

/-- Embeds `_checkModelAttributeParity`: no warnings; a single aggregated ERROR
finding when at least one intersection uid has a field mismatch, whose detail
lines carry the uid and the stringified diff triples of that uid. -/
def checkModelAttributeParity (engineMetrics : List EngineMetric)
    (dynamodbMetrics : List DynamoMetric) (verbose : Bool) :
    Except String (List Finding × List Finding) :=
  match collectMismatches (commonPairs engineMetrics dynamodbMetrics) with
  | Except.error msg => Except.error msg
  | Except.ok mismatches =>
    let errors :=
      if mismatches.isEmpty then []
      else
        [{ caption := toString mismatches.length ++
             " models have attribute mismatch between Taurus Engine " ++
             "repository and DynamoDB",
           lines := mismatches.map fun m =>
             { uid := m.1,
               rest := m.2.flatMap fun diff => [diff.1, diff.2.1, diff.2.2] } }]
    Except.ok (([] : List Finding), errors)

/-- The attribute-parity mismatch condition in the words of the spec (claim
C3), stated directly on the two input populations: the uid lies in the
intersection of the ACTIVE-authoritative key set and the mirror key set, and
at least one of the five compared fields differs between its engine record
and its mirror record. -/
def specAttributeMismatch (engineMetrics : List EngineMetric)
    (dynamodbMetrics : List DynamoMetric) (uid : String) : Prop :=
  uid ∈ activeUids engineMetrics ∧ uid ∈ dynamoUids dynamodbMetrics ∧
  ∃ a ∈ engineMetrics, ∃ dm ∈ dynamodbMetrics,
    a.uid = uid ∧ dm.uid = uid ∧ a.status = MetricStatus.ACTIVE ∧
    ∃ u, a.parameters = some u ∧
      (a.name ≠ dm.name ∨ a.server ≠ dm.display_name ∨
       u.metricType ≠ dm.metricType ∨ u.metricTypeName ≠ dm.metricTypeName ∨
       u.symbol ≠ dm.symbol)

/-- Embeds `_runAllChecks`: runs the three checks in order and concatenates their
warnings and errors.  The `verbose` branch of the source only emits log lines
and contributes nothing to the returned value. -/
def runAllChecks (engineMetrics : List EngineMetric)
    (dynamodbMetrics : List DynamoMetric) (verbose : Bool) :
    Except String (List Finding × List Finding) :=
  let (warnings1, errors1) := checkFailedModels engineMetrics verbose
  let (warnings2, errors2) :=
    checkModelParity engineMetrics dynamodbMetrics verbose
  match checkModelAttributeParity engineMetrics dynamodbMetrics verbose with
  | Except.error msg => Except.error msg
  | Except.ok (warnings3, errors3) =>
    Except.ok (warnings1 ++ warnings2 ++ warnings3,
               errors1 ++ errors2 ++ errors3)

/-- The verdict derivation at the end of `checkAndReport`:
`if errors or (warnings and warningsAsErrors): return 1 else: return 0`. -/
def verdict (warnings errors : List Finding) (warningsAsErrors : Bool) : Nat :=
  if ¬ errors.isEmpty ∨ (¬ warnings.isEmpty ∧ warningsAsErrors) then 1 else 0

/-- Embeds `checkAndReport` after the two collaborator fetches: run all checks on the
already-fetched populations, log findings (pure model: logging elided), and
return the exit code. -/
def checkAndReport (engineMetrics : List EngineMetric)
    (dynamodbMetrics : List DynamoMetric) (verbose warningsAsErrors : Bool) :
    Except String Nat :=
  match runAllChecks engineMetrics dynamodbMetrics verbose with
  | Except.error msg => Except.error msg
  | Except.ok (warnings, errors) =>
    Except.ok (verdict warnings errors warningsAsErrors)

end CheckModelConsistency

namespace MonitorDispatcher

/-!
`taurus/monitoring/monitor_dispatcher.py` itself is not among the source
files; only its unit test `tests/unit/monitor_dispatcher_test.py` is.  The
definitions below are therefore modelled from the spec (§4.1, §4.2, §7) and
checked for shape against that test.
-/

/-- Modelled from the spec: the captured failure of one check invocation —
the raised error's kind (`excType`), message (`excValue`) and trace
(`excTraceback`), as forwarded to `dispatchNotification`.  (The module
`monitor_dispatcher.py` is missing from the sources; shape per the test's
`dispatchNotification(self, checkFn, excType, excValue, excTraceback)`.) -/
structure CheckFailure where
  excType : String
  excValue : String
  excTraceback : String
  deriving DecidableEq, Repr

/-- Modelled from the spec: one registered check routine of a concrete
monitor type, identified by name; one invocation either completes normally
(`outcome = none`) or raises, with the captured failure (`outcome = some f`).
(`monitor_dispatcher.py` is missing from the sources.) -/
structure Check where
  name : String
  outcome : Option CheckFailure
  deriving DecidableEq, Repr

/-- Modelled from the spec: one call of the `dispatchNotification` extension
point — the originating check and the captured kind/message/trace.
(`monitor_dispatcher.py` is missing from the sources.) -/
structure Notification where
  checkName : String
  excType : String
  excValue : String
  excTraceback : String
  deriving DecidableEq, Repr

/-- Modelled from the spec: `checkAll()` iterates the registered checks in
registry order, invokes each exactly once, and forwards each failure to
`dispatchNotification` before proceeding to the next check; a failing check
never aborts the iteration and `checkAll` itself never raises for a check's
failure.  Returns the invocation log (names, in invocation order) and the
notifications dispatched.  (`monitor_dispatcher.py` is missing from the
sources.) -/
def checkAll : List Check → List String × List Notification
  | [] => ([], [])
  | c :: rest =>
    let (invoked, notifs) := checkAll rest
    (c.name :: invoked,
     match c.outcome with
     | none => notifs
     | some f => { checkName := c.name, excType := f.excType,
                   excValue := f.excValue,
                   excTraceback := f.excTraceback } :: notifs)

/-- The notification `checkAll` dispatches for a failing check. -/
def notificationOf (c : Check) (f : CheckFailure) : Notification :=
  { checkName := c.name, excType := f.excType, excValue := f.excValue,
    excTraceback := f.excTraceback }

/-- Modelled from the spec: what a concrete `MonitorDispatcher` subtype
declares — whether it supplies an implementation of the abstract
`dispatchNotification` extension point.  (`monitor_dispatcher.py` is missing
from the sources; the abc contract is exercised by
`testIncompleteSubclassImplementation`.) -/
structure MonitorTypeDef where
  hasDispatchNotification : Bool
  deriving DecidableEq, Repr

/-- Modelled from the spec: the configuration error raised at construction
time (Python `TypeError` from the abc machinery). -/
inductive ConstructError
  | typeError
  deriving DecidableEq, Repr

/-- A successfully constructed monitor instance. -/
structure MonitorInstance where
  typeDef : MonitorTypeDef
  deriving DecidableEq, Repr

/-- Modelled from the spec: instantiating a concrete type fails with a
`TypeError` at construction time when the type has not supplied a
`dispatchNotification` implementation, before any check runs.
(`monitor_dispatcher.py` is missing from the sources.) -/
def construct (t : MonitorTypeDef) : Except ConstructError MonitorInstance :=
  if t.hasDispatchNotification then Except.ok { typeDef := t }
  else Except.error ConstructError.typeError

end MonitorDispatcher

namespace CheckModelConsistency

/-- Concrete sample engine row (ACTIVE, well-formed payload) used to exercise
the theorems at specific inputs. -/
def sampleActiveEngine : EngineMetric :=
  { uid := "1", name := "A", status := MetricStatus.ACTIVE, message := "",
    server := "s1",
    parameters := some { metricType := "T", metricTypeName := "TN",
                         symbol := "X" } }

/-- Concrete sample engine row in ERROR state. -/
def sampleErrorEngine : EngineMetric :=
  { uid := "1", name := "B", status := MetricStatus.ERROR, message := "boom",
    server := "s", parameters := none }

/-- Concrete sample engine row (ACTIVE) with a malformed `parameters`
payload. -/
def sampleMalformedEngine : EngineMetric :=
  { uid := "1", name := "A", status := MetricStatus.ACTIVE, message := "",
    server := "s1", parameters := none }

/-- Concrete sample dynamodb row sharing uid "1" but with a differing
`display_name`. -/
def sampleDynamo : DynamoMetric :=
  { uid := "1", name := "A", display_name := "s2", metricType := "T",
    metricTypeName := "TN", symbol := "X" }

/-- The attribute-mismatch finding produced on
`[sampleActiveEngine]` vs `[sampleDynamo]`. -/
def sampleMismatchFinding : Finding :=
  { caption := "1 models have attribute mismatch between Taurus Engine " ++
      "repository and DynamoDB",
    lines := [{ uid := "1", rest := ["display_name", "s1", "s2"] }] }

/-- The failed-models warning produced on `[sampleErrorEngine]`. -/
def sampleFailedFinding : Finding :=
  { caption := "1 models in ERROR state",
    lines := [{ uid := "1", rest := ["B", "boom"] }] }

/-- The orphaned-models error produced on
`[sampleErrorEngine]` vs `[sampleDynamo]`. -/
def sampleOrphanFinding : Finding :=
  { caption := "There are 1 model UIDs in DynamoDB that are not among " ++
      "active models in Taurus Engine repository",
    lines := [{ uid := "1", rest := ["A"] }] }

end CheckModelConsistency

/-! ## Helper lemmas -/

namespace CheckModelConsistency

theorem mem_dictKeys {α : Type} (key : α → String) (rows : List α)
    (uid : String) :
    uid ∈ dictKeys key rows ↔ ∃ r ∈ rows, key r = uid := by
  simp [dictKeys, List.mem_dedup]

theorem dictGet_eq_some {α : Type} (key : α → String) (rows : List α)
    (uid : String) (r : α) (h : dictGet key rows uid = some r) :
    r ∈ rows ∧ key r = uid := by
  unfold dictGet at h
  have h1 := List.mem_of_find?_eq_some h
  have h2 := List.find?_some h
  rw [List.mem_reverse] at h1
  simp only [decide_eq_true_eq] at h2
  exact ⟨h1, h2⟩

theorem dictGet_isSome {α : Type} (key : α → String) (rows : List α)
    (uid : String) (h : uid ∈ dictKeys key rows) :
    ∃ r, dictGet key rows uid = some r := by
  rw [mem_dictKeys] at h
  obtain ⟨r, hr, hk⟩ := h
  have hs : (rows.reverse.find? (fun x => key x = uid)).isSome := by
    rw [List.find?_isSome]
    exact ⟨r, List.mem_reverse.mpr hr, by simp [hk]⟩
  obtain ⟨x, hx⟩ := Option.isSome_iff_exists.mp hs
  exact ⟨x, hx⟩

theorem dictGet_nodup_eq {α : Type} (key : α → String) (rows : List α) (r : α)
    (hr : r ∈ rows) (hnd : (rows.map key).Nodup) :
    dictGet key rows (key r) = some r := by
  obtain ⟨x, hx⟩ := dictGet_isSome key rows (key r)
    ((mem_dictKeys key rows (key r)).mpr ⟨r, hr, rfl⟩)
  obtain ⟨hxm, hxk⟩ := dictGet_eq_some key rows (key r) x hx
  have hxr : x = r := List.inj_on_of_nodup_map hnd hxm hr hxk
  rw [hx, hxr]

theorem mem_activeUids (engineMetrics : List EngineMetric) (uid : String) :
    uid ∈ activeUids engineMetrics ↔
      ∃ m ∈ engineMetrics, m.status = MetricStatus.ACTIVE ∧ m.uid = uid := by
  simp only [activeUids, mem_dictKeys, activeModelsOf, List.mem_filter,
    decide_eq_true_eq]
  constructor
  · rintro ⟨r, ⟨hr, hact⟩, huid⟩
    exact ⟨r, hr, hact, huid⟩
  · rintro ⟨r, hr, hact, huid⟩
    exact ⟨r, ⟨hr, hact⟩, huid⟩

theorem mem_dynamoUids (dynamodbMetrics : List DynamoMetric) (uid : String) :
    uid ∈ dynamoUids dynamodbMetrics ↔
      ∃ m ∈ dynamodbMetrics, m.uid = uid := by
  simp [dynamoUids, mem_dictKeys]

theorem mem_inRepositoryButNotInDynamodb (engineMetrics : List EngineMetric)
    (dynamodbMetrics : List DynamoMetric) (uid : String) :
    uid ∈ inRepositoryButNotInDynamodb engineMetrics dynamodbMetrics ↔
      uid ∈ activeUids engineMetrics ∧ uid ∉ dynamoUids dynamodbMetrics := by
  simp [inRepositoryButNotInDynamodb, List.mem_filter]

theorem mem_inDynamodbButNotInRepository (engineMetrics : List EngineMetric)
    (dynamodbMetrics : List DynamoMetric) (uid : String) :
    uid ∈ inDynamodbButNotInRepository engineMetrics dynamodbMetrics ↔
      uid ∈ dynamoUids dynamodbMetrics ∧ uid ∉ activeUids engineMetrics := by
  simp [inDynamodbButNotInRepository, List.mem_filter]

theorem inRepositoryButNotInDynamodb_eq_nil (engineMetrics : List EngineMetric)
    (dynamodbMetrics : List DynamoMetric) :
    inRepositoryButNotInDynamodb engineMetrics dynamodbMetrics = [] ↔
      ∀ uid ∈ activeUids engineMetrics, uid ∈ dynamoUids dynamodbMetrics := by
  simp [inRepositoryButNotInDynamodb, List.filter_eq_nil_iff]

theorem inDynamodbButNotInRepository_eq_nil (engineMetrics : List EngineMetric)
    (dynamodbMetrics : List DynamoMetric) :
    inDynamodbButNotInRepository engineMetrics dynamodbMetrics = [] ↔
      ∀ uid ∈ dynamoUids dynamodbMetrics, uid ∈ activeUids engineMetrics := by
  simp [inDynamodbButNotInRepository, List.filter_eq_nil_iff]

theorem missingFinding_eq_nil (engineMetrics : List EngineMetric)
    (dynamodbMetrics : List DynamoMetric) :
    missingFinding engineMetrics dynamodbMetrics = [] ↔
      inRepositoryButNotInDynamodb engineMetrics dynamodbMetrics = [] := by
  rcases eq_or_ne (inRepositoryButNotInDynamodb engineMetrics dynamodbMetrics)
      [] with h | h
  · simp [missingFinding, h]
  · simp [missingFinding, h, List.isEmpty_iff]

theorem orphanFinding_eq_nil (engineMetrics : List EngineMetric)
    (dynamodbMetrics : List DynamoMetric) :
    orphanFinding engineMetrics dynamodbMetrics = [] ↔
      inDynamodbButNotInRepository engineMetrics dynamodbMetrics = [] := by
  rcases eq_or_ne (inDynamodbButNotInRepository engineMetrics dynamodbMetrics)
      [] with h | h
  · simp [orphanFinding, h]
  · simp [orphanFinding, h, List.isEmpty_iff]

theorem missingFinding_lines (engineMetrics : List EngineMetric)
    (dynamodbMetrics : List DynamoMetric)
    (h : inRepositoryButNotInDynamodb engineMetrics dynamodbMetrics ≠ []) :
    ∃ f, missingFinding engineMetrics dynamodbMetrics = [f] ∧
      f.lines =
        (inRepositoryButNotInDynamodb engineMetrics dynamodbMetrics).filterMap
          fun uid =>
            (dictGet EngineMetric.uid (activeModelsOf engineMetrics) uid).map
              fun obj => { uid := uid, rest := [obj.name] } := by
  simp only [missingFinding, List.isEmpty_iff]
  rw [if_neg h]
  exact ⟨_, rfl, rfl⟩

theorem orphanFinding_lines (engineMetrics : List EngineMetric)
    (dynamodbMetrics : List DynamoMetric)
    (h : inDynamodbButNotInRepository engineMetrics dynamodbMetrics ≠ []) :
    ∃ f, orphanFinding engineMetrics dynamodbMetrics = [f] ∧
      f.lines =
        (inDynamodbButNotInRepository engineMetrics dynamodbMetrics).filterMap
          fun uid =>
            (dictGet DynamoMetric.uid dynamodbMetrics uid).map
              fun obj => { uid := uid, rest := [obj.name] } := by
  simp only [orphanFinding, List.isEmpty_iff]
  rw [if_neg h]
  exact ⟨_, rfl, rfl⟩

theorem mem_commonMetricIds (engineMetrics : List EngineMetric)
    (dynamodbMetrics : List DynamoMetric) (uid : String) :
    uid ∈ commonMetricIds engineMetrics dynamodbMetrics ↔
      uid ∈ dynamoUids dynamodbMetrics ∧ uid ∈ activeUids engineMetrics := by
  simp [commonMetricIds, List.mem_filter]

theorem mem_commonPairs (engineMetrics : List EngineMetric)
    (dynamodbMetrics : List DynamoMetric) (uid : String) (a : EngineMetric)
    (dm : DynamoMetric) :
    (uid, a, dm) ∈ commonPairs engineMetrics dynamodbMetrics ↔
      uid ∈ commonMetricIds engineMetrics dynamodbMetrics ∧
      dictGet EngineMetric.uid (activeModelsOf engineMetrics) uid = some a ∧
      dictGet DynamoMetric.uid dynamodbMetrics uid = some dm := by
  simp only [commonPairs, List.mem_filterMap]
  constructor
  · rintro ⟨x, hx, hfx⟩
    rcases hga : dictGet EngineMetric.uid (activeModelsOf engineMetrics) x with
      _ | a'
    · rw [hga] at hfx
      simp at hfx
    rcases hgd : dictGet DynamoMetric.uid dynamodbMetrics x with _ | dm'
    · rw [hga, hgd] at hfx
      simp at hfx
    rw [hga, hgd] at hfx
    simp only [Option.some.injEq, Prod.mk.injEq] at hfx
    obtain ⟨hxu, ha', hdm'⟩ := hfx
    subst hxu
    rw [← ha', ← hdm']
    exact ⟨hx, hga, hgd⟩
  · rintro ⟨hmem, hga, hgd⟩
    refine ⟨uid, hmem, ?_⟩
    rw [hga, hgd]

theorem pair_fst_of_mem_commonPairs (engineMetrics : List EngineMetric)
    (dynamodbMetrics : List DynamoMetric)
    (p : String × EngineMetric × DynamoMetric)
    (hp : p ∈ commonPairs engineMetrics dynamodbMetrics) :
    p.1 ∈ commonMetricIds engineMetrics dynamodbMetrics := by
  obtain ⟨uid, a, dm⟩ := p
  exact ((mem_commonPairs engineMetrics dynamodbMetrics uid a dm).mp hp).1

theorem collectMismatches_ok
    (pairs : List (String × EngineMetric × DynamoMetric))
    (ms : List (String × List (String × String × String)))
    (h : collectMismatches pairs = Except.ok ms) :
    ms = pairs.filterMap mismatchOf := by
  induction pairs generalizing ms with
  | nil =>
    simp only [collectMismatches, Except.ok.injEq] at h
    simp [← h]
  | cons p rest ih =>
    obtain ⟨uid, a, d⟩ := p
    rcases hpa : a.parameters with _ | u
    · simp [collectMismatches, compareModels, hpa] at h
    · rcases hr : collectMismatches rest with msg | tail
      · simp [collectMismatches, compareModels, hpa, hr] at h
      · simp only [collectMismatches, compareModels, hpa, hr,
          Except.ok.injEq] at h
        rw [← h, List.filterMap_cons, ih tail hr]
        simp only [mismatchOf, hpa]
        rcases hde : (diffsOf a u d).isEmpty with _ | _
        · simp [hde]
        · simp [hde]

theorem collectMismatches_error
    (pairs : List (String × EngineMetric × DynamoMetric))
    (h : ∃ p ∈ pairs, p.2.1.parameters = none) :
    ∃ msg, collectMismatches pairs = Except.error msg := by
  induction pairs with
  | nil => simp at h
  | cons p rest ih =>
    obtain ⟨uid, a, d⟩ := p
    obtain ⟨q, hq, hqnone⟩ := h
    rcases List.mem_cons.mp hq with hhd | hmem
    · rw [hhd] at hqnone
      simp only at hqnone
      exact ⟨"unable to deserialize parameters of model " ++ a.uid,
        by simp [collectMismatches, compareModels, hqnone]⟩
    · obtain ⟨msg, hmsg⟩ := ih ⟨q, hmem, hqnone⟩
      rcases hpa : a.parameters with _ | u
      · exact ⟨"unable to deserialize parameters of model " ++ a.uid,
          by simp [collectMismatches, compareModels, hpa]⟩
      · exact ⟨msg, by simp [collectMismatches, compareModels, hpa, hmsg]⟩

theorem diffsOf_ne_nil (a : EngineMetric) (u : UserInfo) (dm : DynamoMetric) :
    diffsOf a u dm ≠ [] ↔
      (a.name ≠ dm.name ∨ a.server ≠ dm.display_name ∨
       u.metricType ≠ dm.metricType ∨ u.metricTypeName ≠ dm.metricTypeName ∨
       u.symbol ≠ dm.symbol) := by
  unfold diffsOf
  by_cases h1 : a.name = dm.name <;>
    by_cases h2 : a.server = dm.display_name <;>
    by_cases h3 : u.metricType = dm.metricType <;>
    by_cases h4 : u.metricTypeName = dm.metricTypeName <;>
    by_cases h5 : u.symbol = dm.symbol <;>
    simp [h1, h2, h3, h4, h5]

theorem nodup_activeModels_uids (engineMetrics : List EngineMetric)
    (he : (engineMetrics.map EngineMetric.uid).Nodup) :
    ((activeModelsOf engineMetrics).map EngineMetric.uid).Nodup :=
  he.sublist (List.Sublist.map EngineMetric.uid (List.filter_sublist _))

theorem mismatchOf_eq_some (p : String × EngineMetric × DynamoMetric)
    (uid : String) (ds : List (String × String × String))
    (h : mismatchOf p = some (uid, ds)) :
    p.1 = uid ∧ ∃ u, p.2.1.parameters = some u ∧
      ds = diffsOf p.2.1 u p.2.2 ∧ ds ≠ [] := by
  rcases hpa : p.2.1.parameters with _ | u
  · simp [mismatchOf, hpa] at h
  · simp only [mismatchOf, hpa] at h
    rcases hde : (diffsOf p.2.1 u p.2.2).isEmpty with _ | _
    · rw [hde] at h
      simp only [Bool.false_eq_true, if_false, Option.some.injEq,
        Prod.mk.injEq] at h
      refine ⟨h.1, u, rfl, h.2.symm, ?_⟩
      rw [← h.2]
      intro hnil
      rw [hnil] at hde
      simp at hde
    · rw [hde] at h
      simp at h

theorem attrParity_ok_chars (engineMetrics : List EngineMetric)
    (dynamodbMetrics : List DynamoMetric) (verbose : Bool)
    (warnings errors : List Finding)
    (hok : checkModelAttributeParity engineMetrics dynamodbMetrics verbose =
      Except.ok (warnings, errors)) :
    warnings = [] ∧ errors.length ≤ 1 ∧
    (errors = [] ↔
      (commonPairs engineMetrics dynamodbMetrics).filterMap mismatchOf = []) ∧
    ∀ uid, (∃ f ∈ errors, ∃ l ∈ f.lines, l.uid = uid) ↔
      ∃ ds, (uid, ds) ∈
        (commonPairs engineMetrics dynamodbMetrics).filterMap mismatchOf := by
  rcases hcm : collectMismatches (commonPairs engineMetrics dynamodbMetrics)
      with msg | ms
  · simp [checkModelAttributeParity, hcm] at hok
  have hms := collectMismatches_ok _ ms hcm
  simp only [checkModelAttributeParity, hcm, Except.ok.injEq,
    Prod.mk.injEq] at hok
  obtain ⟨hw, herrs⟩ := hok
  refine ⟨hw.symm, ?_, ?_, ?_⟩
  · rw [← herrs]
    rcases hme : ms.isEmpty with _ | _ <;> simp [hme]
  · rw [← herrs, ← hms]
    rcases eq_or_ne ms [] with hnil | hnil
    · simp [hnil]
    · have hme : ms.isEmpty = false := by
        rw [Bool.eq_false_iff]
        simpa [List.isEmpty_iff] using hnil
      simp [hme, hnil]
  · intro uid
    rw [← herrs, ← hms]
    rcases eq_or_ne ms [] with hnil | hnil
    · simp [hnil]
    · have hme : ms.isEmpty = false := by
        rw [Bool.eq_false_iff]
        simpa [List.isEmpty_iff] using hnil
      simp only [hme, Bool.false_eq_true, if_false]
      constructor
      · rintro ⟨f, hf, l, hl, hluid⟩
        simp only [List.mem_singleton] at hf
        rw [hf] at hl
        simp only [List.mem_map] at hl
        obtain ⟨m, hm, hml⟩ := hl
        refine ⟨m.2, ?_⟩
        have : m.1 = uid := by rw [← hluid, ← hml]
        rw [← this]
        exact hm
      · rintro ⟨ds, hds⟩
        refine ⟨_, List.mem_singleton.mpr rfl, ?_⟩
        refine ⟨{ uid := uid, rest := ds.flatMap fun diff =>
          [diff.1, diff.2.1, diff.2.2] }, ?_, rfl⟩
        simp only [List.mem_map]
        exact ⟨(uid, ds), hds, rfl⟩

theorem mismatchOf_exists_iff (engineMetrics : List EngineMetric)
    (dynamodbMetrics : List DynamoMetric) (uid : String)
    (he : (engineMetrics.map EngineMetric.uid).Nodup)
    (hd : (dynamodbMetrics.map DynamoMetric.uid).Nodup) :
    (∃ ds, (uid, ds) ∈
      (commonPairs engineMetrics dynamodbMetrics).filterMap mismatchOf) ↔
      specAttributeMismatch engineMetrics dynamodbMetrics uid := by
  constructor
  · rintro ⟨ds, hds⟩
    obtain ⟨p, hp, hmp⟩ := List.mem_filterMap.mp hds
    obtain ⟨hpuid, u, hpa, hdseq, hdsne⟩ := mismatchOf_eq_some p uid ds hmp
    obtain ⟨puid, a, dm⟩ := p
    simp only at hpuid hpa hdseq hdsne
    rw [hpuid] at hp
    obtain ⟨hcm, hga, hgd⟩ :=
      (mem_commonPairs engineMetrics dynamodbMetrics uid a dm).mp hp
    obtain ⟨hdu, hau⟩ :=
      (mem_commonMetricIds engineMetrics dynamodbMetrics uid).mp hcm
    obtain ⟨hma, hauid⟩ := dictGet_eq_some _ _ _ _ hga
    obtain ⟨hdm, hdmuid⟩ := dictGet_eq_some _ _ _ _ hgd
    obtain ⟨hae, hact⟩ := List.mem_filter.mp hma
    refine ⟨hau, hdu, a, hae, dm, hdm, hauid, hdmuid, ?_, u, hpa, ?_⟩
    · simpa using hact
    · rw [hdseq] at hdsne
      exact (diffsOf_ne_nil a u dm).mp hdsne
  · rintro ⟨hau, hdu, a, hae, dm, hdm, hauid, hdmuid, hact, u, hpa, hdisc⟩
    have hcm : uid ∈ commonMetricIds engineMetrics dynamodbMetrics :=
      (mem_commonMetricIds engineMetrics dynamodbMetrics uid).mpr ⟨hdu, hau⟩
    have hma : a ∈ activeModelsOf engineMetrics :=
      List.mem_filter.mpr ⟨hae, by simp [hact]⟩
    have hga : dictGet EngineMetric.uid (activeModelsOf engineMetrics) uid =
        some a := by
      have hg := dictGet_nodup_eq EngineMetric.uid
        (activeModelsOf engineMetrics) a hma (nodup_activeModels_uids _ he)
      rwa [hauid] at hg
    have hgd : dictGet DynamoMetric.uid dynamodbMetrics uid = some dm := by
      have hg := dictGet_nodup_eq DynamoMetric.uid dynamodbMetrics dm hdm hd
      rwa [hdmuid] at hg
    have hpair : (uid, a, dm) ∈ commonPairs engineMetrics dynamodbMetrics :=
      (mem_commonPairs engineMetrics dynamodbMetrics uid a dm).mpr
        ⟨hcm, hga, hgd⟩
    have hne : diffsOf a u dm ≠ [] := (diffsOf_ne_nil a u dm).mpr hdisc
    refine ⟨diffsOf a u dm,
      List.mem_filterMap.mpr ⟨(uid, a, dm), hpair, ?_⟩⟩
    simp [mismatchOf, hpa, List.isEmpty_iff, hne]

theorem failed_lines_uids (engineMetrics : List EngineMetric) (verbose : Bool) :
    ∀ f ∈ (checkFailedModels engineMetrics verbose).1, ∀ l ∈ f.lines,
      l.uid ∈ engineMetrics.map EngineMetric.uid := by
  intro f hf l hl
  rcases eq_or_ne (errorModelsOf engineMetrics) [] with h | h
  · simp [checkFailedModels, h] at hf
  · have hme : (errorModelsOf engineMetrics).isEmpty = false := by
      rw [Bool.eq_false_iff]
      simpa [List.isEmpty_iff] using h
    simp only [checkFailedModels, hme, Bool.false_eq_true, if_false,
      List.mem_singleton] at hf
    rw [hf] at hl
    simp only [List.mem_map] at hl
    obtain ⟨m, hm, hml⟩ := hl
    have hmu : l.uid = m.uid := by rw [← hml]
    rw [hmu]
    simp only [errorModelsOf] at hm
    exact List.mem_map.mpr ⟨m, List.mem_of_mem_filter hm, rfl⟩

theorem missing_lines_uids (engineMetrics : List EngineMetric)
    (dynamodbMetrics : List DynamoMetric) :
    ∀ f ∈ missingFinding engineMetrics dynamodbMetrics, ∀ l ∈ f.lines,
      l.uid ∈ engineMetrics.map EngineMetric.uid := by
  intro f hf l hl
  rcases eq_or_ne (inRepositoryButNotInDynamodb engineMetrics dynamodbMetrics)
      [] with h | h
  · simp [missingFinding, h] at hf
  · obtain ⟨f0, hf0, hlines⟩ := missingFinding_lines engineMetrics
      dynamodbMetrics h
    rw [hf0, List.mem_singleton] at hf
    rw [hf, hlines] at hl
    obtain ⟨uid, huid, hsome⟩ := List.mem_filterMap.mp hl
    rcases hg : dictGet EngineMetric.uid (activeModelsOf engineMetrics) uid
      with _ | obj
    · rw [hg] at hsome
      simp at hsome
    · rw [hg] at hsome
      simp only [Option.map_some', Option.some.injEq] at hsome
      have hlu : l.uid = uid := by rw [← hsome]
      rw [hlu]
      have hau := ((mem_inRepositoryButNotInDynamodb engineMetrics
        dynamodbMetrics uid).mp huid).1
      obtain ⟨m, hm, _, hmu⟩ := (mem_activeUids engineMetrics uid).mp hau
      exact List.mem_map.mpr ⟨m, hm, hmu⟩

theorem orphan_lines_uids (engineMetrics : List EngineMetric)
    (dynamodbMetrics : List DynamoMetric) :
    ∀ f ∈ orphanFinding engineMetrics dynamodbMetrics, ∀ l ∈ f.lines,
      l.uid ∈ dynamodbMetrics.map DynamoMetric.uid := by
  intro f hf l hl
  rcases eq_or_ne (inDynamodbButNotInRepository engineMetrics dynamodbMetrics)
      [] with h | h
  · simp [orphanFinding, h] at hf
  · obtain ⟨f0, hf0, hlines⟩ := orphanFinding_lines engineMetrics
      dynamodbMetrics h
    rw [hf0, List.mem_singleton] at hf
    rw [hf, hlines] at hl
    obtain ⟨uid, huid, hsome⟩ := List.mem_filterMap.mp hl
    rcases hg : dictGet DynamoMetric.uid dynamodbMetrics uid with _ | obj
    · rw [hg] at hsome
      simp at hsome
    · rw [hg] at hsome
      simp only [Option.map_some', Option.some.injEq] at hsome
      have hlu : l.uid = uid := by rw [← hsome]
      rw [hlu]
      have hdu := ((mem_inDynamodbButNotInRepository engineMetrics
        dynamodbMetrics uid).mp huid).1
      obtain ⟨m, hm, hmu⟩ := (mem_dynamoUids dynamodbMetrics uid).mp hdu
      exact List.mem_map.mpr ⟨m, hm, hmu⟩

theorem attr_lines_uids (engineMetrics : List EngineMetric)
    (dynamodbMetrics : List DynamoMetric) (verbose : Bool)
    (warnings errors : List Finding)
    (hok : checkModelAttributeParity engineMetrics dynamodbMetrics verbose =
      Except.ok (warnings, errors)) :
    ∀ f ∈ warnings ++ errors, ∀ l ∈ f.lines,
      l.uid ∈ dynamodbMetrics.map DynamoMetric.uid := by
  obtain ⟨hw, _, _, hiff⟩ := attrParity_ok_chars engineMetrics dynamodbMetrics
    verbose warnings errors hok
  intro f hf l hl
  rcases List.mem_append.mp hf with hfw | hfe
  · rw [hw] at hfw
    simp at hfw
  · obtain ⟨ds, hds⟩ := (hiff l.uid).mp ⟨f, hfe, l, hl, rfl⟩
    obtain ⟨p, hp, hmp⟩ := List.mem_filterMap.mp hds
    have hp1 := (mismatchOf_eq_some p l.uid ds hmp).1
    have hcm := pair_fst_of_mem_commonPairs engineMetrics dynamodbMetrics p hp
    rw [hp1] at hcm
    have hdu := ((mem_commonMetricIds engineMetrics dynamodbMetrics
      l.uid).mp hcm).1
    obtain ⟨m, hm, hmu⟩ := (mem_dynamoUids dynamodbMetrics l.uid).mp hdu
    exact List.mem_map.mpr ⟨m, hm, hmu⟩

theorem runAllChecks_ok (engineMetrics : List EngineMetric)
    (dynamodbMetrics : List DynamoMetric) (verbose : Bool)
    (warnings errors : List Finding)
    (hok : runAllChecks engineMetrics dynamodbMetrics verbose =
      Except.ok (warnings, errors)) :
    ∃ warnings3 errors3,
      checkModelAttributeParity engineMetrics dynamodbMetrics verbose =
        Except.ok (warnings3, errors3) ∧
      warnings = (checkFailedModels engineMetrics verbose).1 ++
        (checkModelParity engineMetrics dynamodbMetrics verbose).1 ++
        warnings3 ∧
      errors = (checkFailedModels engineMetrics verbose).2 ++
        (checkModelParity engineMetrics dynamodbMetrics verbose).2 ++
        errors3 := by
  rcases hap : checkModelAttributeParity engineMetrics dynamodbMetrics verbose
    with msg | wp
  · rcases hfm : checkFailedModels engineMetrics verbose with ⟨w1, e1⟩
    rcases hcp : checkModelParity engineMetrics dynamodbMetrics verbose
      with ⟨w2, e2⟩
    simp [runAllChecks, hfm, hcp, hap] at hok
  · obtain ⟨w3, e3⟩ := wp
    rcases hfm : checkFailedModels engineMetrics verbose with ⟨w1, e1⟩
    rcases hcp : checkModelParity engineMetrics dynamodbMetrics verbose
      with ⟨w2, e2⟩
    simp only [runAllChecks, hfm, hcp, hap, Except.ok.injEq,
      Prod.mk.injEq] at hok
    obtain ⟨hw, herrs⟩ := hok
    refine ⟨w3, e3, rfl, ?_, ?_⟩
    · simpa using hw.symm
    · simpa using herrs.symm

end CheckModelConsistency

/-! ## Claim theorems -/

namespace CheckModelConsistency

/-- C1: The verdict function returns exit code 1 if and only if at least one
ERROR finding exists, or at least one WARNING finding exists and strict mode
(`warningsAsErrors`) is enabled; otherwise it returns 0 — for every
combination of warning list, error list, and strict flag. -/
theorem verdict_exit_code_iff (warnings errors : List Finding)
    (warningsAsErrors : Bool) :
    (verdict warnings errors warningsAsErrors = 1 ↔
      errors ≠ [] ∨ (warnings ≠ [] ∧ warningsAsErrors = true)) ∧
    (verdict warnings errors warningsAsErrors = 0 ↔
      errors = [] ∧ (warnings = [] ∨ warningsAsErrors = false)) := by
  unfold verdict
  rcases eq_or_ne errors [] with he | he <;>
    rcases eq_or_ne warnings [] with hw | hw <;>
    cases warningsAsErrors <;>
    simp [he, hw, List.isEmpty_iff]

/-- C5: The failed-state detection comparison, for every authoritative
population, returns exactly one WARNING finding if at least one record has
status ERROR and no findings otherwise; that single finding aggregates all
ERROR-status records, its caption states their count, and its detail
enumerates uid, name, message for each such record. -/
theorem failedModels_single_warning (engineMetrics : List EngineMetric)
    (verbose : Bool) :
    (checkFailedModels engineMetrics verbose).2 = [] ∧
    ((checkFailedModels engineMetrics verbose).1.length = 1 ↔
      ∃ m ∈ engineMetrics, m.status = MetricStatus.ERROR) ∧
    ((checkFailedModels engineMetrics verbose).1 = [] ↔
      ¬ ∃ m ∈ engineMetrics, m.status = MetricStatus.ERROR) ∧
    ∀ f ∈ (checkFailedModels engineMetrics verbose).1,
      f.caption = toString (errorModelsOf engineMetrics).length ++
        " models in ERROR state" ∧
      f.lines = (errorModelsOf engineMetrics).map fun obj =>
        { uid := obj.uid, rest := [obj.name, obj.message] } := by
  have hnil : errorModelsOf engineMetrics = [] ↔
      ¬ ∃ m ∈ engineMetrics, m.status = MetricStatus.ERROR := by
    simp [errorModelsOf, List.filter_eq_nil_iff]
  rcases eq_or_ne (errorModelsOf engineMetrics) [] with h | h
  · refine ⟨rfl, ?_, ?_, ?_⟩
    · simp [checkFailedModels, h, hnil.mp h]
    · simp [checkFailedModels, h, hnil.mp h]
    · intro f hf
      simp [checkFailedModels, h] at hf
  · have hme : (errorModelsOf engineMetrics).isEmpty = false := by
      rw [Bool.eq_false_iff]
      simpa [List.isEmpty_iff] using h
    have hex : ∃ m ∈ engineMetrics, m.status = MetricStatus.ERROR :=
      by_contra fun hc => h (hnil.mpr hc)
    refine ⟨rfl, ?_, ?_, ?_⟩
    · simp only [checkFailedModels, hme, Bool.false_eq_true, if_false]
      simpa using hex
    · simp only [checkFailedModels, hme, Bool.false_eq_true, if_false]
      simp [hex]
    · intro f hf
      simp only [checkFailedModels, hme, Bool.false_eq_true, if_false,
        List.mem_singleton] at hf
      rw [hf]
      exact ⟨rfl, rfl⟩

/-- C4: The set-parity comparison produces no findings if and only if the key
set of ACTIVE authoritative records equals the mirror key set exactly;
otherwise it emits an active-but-missing ERROR finding exactly when the
active-minus-mirror key difference is non-empty, and an orphaned ERROR
finding exactly when the mirror-minus-active key difference is non-empty. -/
theorem parity_findings_empty_iff_key_sets_equal
    (engineMetrics : List EngineMetric) (dynamodbMetrics : List DynamoMetric)
    (verbose : Bool) :
    ((checkModelParity engineMetrics dynamodbMetrics verbose).2 = [] ↔
      ∀ uid, uid ∈ activeUids engineMetrics ↔
        uid ∈ dynamoUids dynamodbMetrics) ∧
    (missingFinding engineMetrics dynamodbMetrics ≠ [] ↔
      ∃ uid, uid ∈ activeUids engineMetrics ∧
        uid ∉ dynamoUids dynamodbMetrics) ∧
    (orphanFinding engineMetrics dynamodbMetrics ≠ [] ↔
      ∃ uid, uid ∈ dynamoUids dynamodbMetrics ∧
        uid ∉ activeUids engineMetrics) ∧
    (checkModelParity engineMetrics dynamodbMetrics verbose).2 =
      missingFinding engineMetrics dynamodbMetrics ++
      orphanFinding engineMetrics dynamodbMetrics ∧
    (checkModelParity engineMetrics dynamodbMetrics verbose).1 = [] := by
  refine ⟨?_, ?_, ?_, rfl, rfl⟩
  · have h2 : (checkModelParity engineMetrics dynamodbMetrics verbose).2 =
        missingFinding engineMetrics dynamodbMetrics ++
        orphanFinding engineMetrics dynamodbMetrics := rfl
    rw [h2, List.append_eq_nil, missingFinding_eq_nil, orphanFinding_eq_nil,
      inRepositoryButNotInDynamodb_eq_nil, inDynamodbButNotInRepository_eq_nil]
    constructor
    · rintro ⟨hab, hba⟩ uid
      exact ⟨fun h => hab uid h, fun h => hba uid h⟩
    · intro h
      exact ⟨fun uid hu => (h uid).mp hu, fun uid hu => (h uid).mpr hu⟩
  · rw [Ne, missingFinding_eq_nil, inRepositoryButNotInDynamodb_eq_nil]
    push_neg
    rfl
  · rw [Ne, orphanFinding_eq_nil, inDynamodbButNotInRepository_eq_nil]
    push_neg
    rfl

/-- C9: The verbose flag does not influence the reconciliation outcome: for
any fixed pair of input populations, the (warnings, errors) sequences returned
by the run-all-checks aggregation, and the final exit code, are identical
whether verbose is true or false (verbose affects logging output only). -/
theorem verbose_does_not_affect_outcome (engineMetrics : List EngineMetric)
    (dynamodbMetrics : List DynamoMetric) (warningsAsErrors v1 v2 : Bool) :
    runAllChecks engineMetrics dynamodbMetrics v1 =
      runAllChecks engineMetrics dynamodbMetrics v2 ∧
    checkAndReport engineMetrics dynamodbMetrics v1 warningsAsErrors =
      checkAndReport engineMetrics dynamodbMetrics v2 warningsAsErrors :=
  ⟨rfl, rfl⟩

end CheckModelConsistency

namespace MonitorDispatcher

/-- C2: For every set of N check routines registered on a concrete monitor
type, of which K raise an error and N−K complete normally, checkAll() invokes
all N routines exactly once each and invokes the dispatchNotification
extension point exactly K times, each time with the originating routine and
the raised error's kind and message; a failing check never prevents any
subsequent check from being invoked, and checkAll() itself does not raise due
to a check's failure.  (The invocation log lists every registered check, in
registry order, independent of which checks fail; `checkAll` is a total
function, so it never raises.) -/
theorem checkAll_invokes_all_and_notifies_failures (checks : List Check) :
    (checkAll checks).1 = checks.map Check.name ∧
    (checkAll checks).2 =
      checks.filterMap (fun c => c.outcome.map (notificationOf c)) ∧
    (checkAll checks).2.length =
      (checks.filter (fun c => c.outcome.isSome)).length := by
  induction checks with
  | nil => exact ⟨rfl, rfl, rfl⟩
  | cons c rest ih =>
    obtain ⟨ih1, ih2, ih3⟩ := ih
    rcases hc : c.outcome with _ | f <;>
      simp [checkAll, hc, ih1, ih2, ih3, notificationOf] <;>
      rw [← ih2] <;> exact ih3

/-- C7: For every concrete MonitorDispatcher subtype that does not supply an
implementation of the dispatchNotification extension point, attempting to
construct an instance fails at construction time with a configuration (type)
error, before any check runs. -/
theorem construct_fails_without_impl (t : MonitorTypeDef) :
    construct t = Except.error ConstructError.typeError ↔
      t.hasDispatchNotification = false := by
  unfold construct
  rcases h : t.hasDispatchNotification with _ | _ <;> simp [h]

end MonitorDispatcher

namespace CheckModelConsistency

/-- C3: In the attribute-parity comparison, assuming every authoritative
parameters payload (of a record that is actually compared) is well-formed —
expressed here by the comparison returning findings rather than raising — a
uid appears in the aggregated ERROR finding if and only if the uid is in the
intersection of the ACTIVE-authoritative key set and the mirror key set and
at least one of the five compared fields (name vs name, server vs
display_name, and the payload's metricType, metricTypeName, symbol vs the
flat mirror fields) differs between the two sides; a uid with all five
fields identical never appears, and the finding is emitted only if at least
one uid has a mismatch.  Uniqueness of uids within each population is the
documented shape of the inputs. -/
theorem attrParity_lists_mismatched_uids_iff (engineMetrics : List EngineMetric)
    (dynamodbMetrics : List DynamoMetric) (verbose : Bool)
    (warnings errors : List Finding)
    (hok : checkModelAttributeParity engineMetrics dynamodbMetrics verbose =
      Except.ok (warnings, errors))
    (he : (engineMetrics.map EngineMetric.uid).Nodup)
    (hd : (dynamodbMetrics.map DynamoMetric.uid).Nodup) :
    (∀ uid, (∃ f ∈ errors, ∃ l ∈ f.lines, l.uid = uid) ↔
      specAttributeMismatch engineMetrics dynamodbMetrics uid) ∧
    (errors = [] ↔
      ¬ ∃ uid, specAttributeMismatch engineMetrics dynamodbMetrics uid) ∧
    errors.length ≤ 1 := by
  obtain ⟨hw, hlen, hemp, hiff⟩ := attrParity_ok_chars engineMetrics
    dynamodbMetrics verbose warnings errors hok
  have hmain : ∀ uid, (∃ f ∈ errors, ∃ l ∈ f.lines, l.uid = uid) ↔
      specAttributeMismatch engineMetrics dynamodbMetrics uid :=
    fun uid => (hiff uid).trans
      (mismatchOf_exists_iff engineMetrics dynamodbMetrics uid he hd)
  refine ⟨hmain, ?_, hlen⟩
  rw [hemp]
  constructor
  · rintro hnil ⟨uid, hspec⟩
    obtain ⟨ds, hds⟩ :=
      (mismatchOf_exists_iff engineMetrics dynamodbMetrics uid he hd).mpr hspec
    rw [hnil] at hds
    simp at hds
  · intro hno
    rcases eq_or_ne
        ((commonPairs engineMetrics dynamodbMetrics).filterMap mismatchOf) []
      with h | h
    · exact h
    · exfalso
      obtain ⟨b, hb⟩ := List.exists_mem_of_ne_nil _ h
      exact hno ⟨b.1,
        (mismatchOf_exists_iff engineMetrics dynamodbMetrics b.1 he hd).mp
          ⟨b.2, hb⟩⟩

/-- Witness for C3: the theorem applied to the concrete single-row
populations whose only compared field difference is `display_name`. -/
theorem attrParity_lists_mismatched_uids_iff_witness :
    checkModelAttributeParity [sampleActiveEngine] [sampleDynamo] false =
      Except.ok ([], [sampleMismatchFinding]) ∧
    (List.map EngineMetric.uid [sampleActiveEngine]).Nodup ∧
    (List.map DynamoMetric.uid [sampleDynamo]).Nodup ∧
    ((∀ uid, (∃ f ∈ [sampleMismatchFinding], ∃ l ∈ f.lines, l.uid = uid) ↔
        specAttributeMismatch [sampleActiveEngine] [sampleDynamo] uid) ∧
     (([sampleMismatchFinding] : List Finding) = [] ↔
       ¬ ∃ uid, specAttributeMismatch [sampleActiveEngine] [sampleDynamo]
         uid) ∧
     ([sampleMismatchFinding] : List Finding).length ≤ 1) :=
  ⟨rfl, by decide, by decide,
    attrParity_lists_mismatched_uids_iff [sampleActiveEngine] [sampleDynamo]
      false [] [sampleMismatchFinding] rfl (by decide) (by decide)⟩

/-- C6: If, during the attribute-parity comparison, the serialized parameters
payload of some authoritative record whose uid is in the active∩mirror
intersection is malformed, the comparison raises a fatal error that
propagates to the caller; the malformed record is never silently skipped and
never converted into a Finding (the comparison returns no findings at
all). -/
theorem malformed_payload_raises (engineMetrics : List EngineMetric)
    (dynamodbMetrics : List DynamoMetric) (verbose : Bool) (m : EngineMetric)
    (hm : m ∈ engineMetrics) (hactive : m.status = MetricStatus.ACTIVE)
    (hmal : m.parameters = none)
    (hmirror : m.uid ∈ dynamoUids dynamodbMetrics)
    (he : (engineMetrics.map EngineMetric.uid).Nodup) :
    ∃ msg, checkModelAttributeParity engineMetrics dynamodbMetrics verbose =
      Except.error msg := by
  have hau : m.uid ∈ activeUids engineMetrics :=
    (mem_activeUids engineMetrics m.uid).mpr ⟨m, hm, hactive, rfl⟩
  have hcm : m.uid ∈ commonMetricIds engineMetrics dynamodbMetrics :=
    (mem_commonMetricIds engineMetrics dynamodbMetrics m.uid).mpr
      ⟨hmirror, hau⟩
  have hma : m ∈ activeModelsOf engineMetrics :=
    List.mem_filter.mpr ⟨hm, by simp [hactive]⟩
  have hga : dictGet EngineMetric.uid (activeModelsOf engineMetrics) m.uid =
      some m :=
    dictGet_nodup_eq EngineMetric.uid (activeModelsOf engineMetrics) m hma
      (nodup_activeModels_uids engineMetrics he)
  obtain ⟨dm, hgd⟩ :=
    dictGet_isSome DynamoMetric.uid dynamodbMetrics m.uid hmirror
  have hpair : (m.uid, m, dm) ∈ commonPairs engineMetrics dynamodbMetrics :=
    (mem_commonPairs engineMetrics dynamodbMetrics m.uid m dm).mpr
      ⟨hcm, hga, hgd⟩
  obtain ⟨msg, hmsg⟩ :=
    collectMismatches_error _ ⟨(m.uid, m, dm), hpair, hmal⟩
  exact ⟨msg, by simp [checkModelAttributeParity, hmsg]⟩

/-- Witness for C6: the theorem applied to a concrete population whose single
ACTIVE record has a malformed payload and is mirrored. -/
theorem malformed_payload_raises_witness :
    sampleMalformedEngine ∈ [sampleMalformedEngine] ∧
    sampleMalformedEngine.status = MetricStatus.ACTIVE ∧
    sampleMalformedEngine.parameters = none ∧
    sampleMalformedEngine.uid ∈ dynamoUids [sampleDynamo] ∧
    (List.map EngineMetric.uid [sampleMalformedEngine]).Nodup ∧
    ∃ msg, checkModelAttributeParity [sampleMalformedEngine] [sampleDynamo]
      false = Except.error msg :=
  ⟨by decide, by decide, rfl, by decide, by decide,
    malformed_payload_raises [sampleMalformedEngine] [sampleDynamo] false
      sampleMalformedEngine (by decide) (by decide) rfl (by decide)
      (by decide)⟩

/-- C8: For every pair of input populations, every uid mentioned in any
finding produced by the three comparison routines was present in at least one
of the two input populations; no finding references a uid absent from both
inputs. -/
theorem finding_uids_come_from_inputs (engineMetrics : List EngineMetric)
    (dynamodbMetrics : List DynamoMetric) (verbose : Bool)
    (warnings errors : List Finding)
    (hok : runAllChecks engineMetrics dynamodbMetrics verbose =
      Except.ok (warnings, errors)) :
    ∀ f ∈ warnings ++ errors, ∀ l ∈ f.lines,
      l.uid ∈ engineMetrics.map EngineMetric.uid ∨
      l.uid ∈ dynamodbMetrics.map DynamoMetric.uid := by
  obtain ⟨w3, e3, hap, hw, herrs⟩ := runAllChecks_ok engineMetrics
    dynamodbMetrics verbose warnings errors hok
  intro f hf l hl
  rcases List.mem_append.mp hf with hfw | hfe
  · rw [hw] at hfw
    rcases List.mem_append.mp hfw with hf12 | hf3
    · rcases List.mem_append.mp hf12 with hf1 | hf2
      · exact Or.inl (failed_lines_uids engineMetrics verbose f hf1 l hl)
      · have hcp1 :
            (checkModelParity engineMetrics dynamodbMetrics verbose).1 =
              [] := rfl
        rw [hcp1] at hf2
        simp at hf2
    · obtain ⟨hw3, _, _, _⟩ := attrParity_ok_chars engineMetrics
        dynamodbMetrics verbose w3 e3 hap
      rw [hw3] at hf3
      simp at hf3
  · rw [herrs] at hfe
    rcases List.mem_append.mp hfe with hf12 | hf3
    · rcases List.mem_append.mp hf12 with hf1 | hf2
      · have hfm2 : (checkFailedModels engineMetrics verbose).2 = [] := rfl
        rw [hfm2] at hf1
        simp at hf1
      · have hcp2 :
            (checkModelParity engineMetrics dynamodbMetrics verbose).2 =
              missingFinding engineMetrics dynamodbMetrics ++
              orphanFinding engineMetrics dynamodbMetrics := rfl
        rw [hcp2] at hf2
        rcases List.mem_append.mp hf2 with hmf | hof
        · exact Or.inl
            (missing_lines_uids engineMetrics dynamodbMetrics f hmf l hl)
        · exact Or.inr
            (orphan_lines_uids engineMetrics dynamodbMetrics f hof l hl)
    · exact Or.inr (attr_lines_uids engineMetrics dynamodbMetrics verbose
        w3 e3 hap f (List.mem_append_right w3 hf3) l hl)

/-- Witness for C8: the theorem applied to a concrete run producing one
warning (failed models) and one error (orphaned model). -/
theorem finding_uids_come_from_inputs_witness :
    runAllChecks [sampleErrorEngine] [sampleDynamo] false =
      Except.ok ([sampleFailedFinding], [sampleOrphanFinding]) ∧
    ∀ f ∈ [sampleFailedFinding] ++ [sampleOrphanFinding], ∀ l ∈ f.lines,
      l.uid ∈ List.map EngineMetric.uid [sampleErrorEngine] ∨
      l.uid ∈ List.map DynamoMetric.uid [sampleDynamo] :=
  ⟨rfl, finding_uids_come_from_inputs [sampleErrorEngine] [sampleDynamo]
    false [sampleFailedFinding] [sampleOrphanFinding] rfl⟩

/-- C10: The orphan side of the set-parity comparison is computed against
only the ACTIVE subset of the authoritative population, not the whole
population: a uid present in the mirror whose authoritative record exists but
has a non-ACTIVE status (ERROR, UNMONITORED, CREATE_PENDING, or PENDING_DATA)
is included in the orphaned ERROR finding.  Uniqueness of uids within the
authoritative population is the documented shape of the inputs. -/
theorem orphan_includes_non_active_statuses (engineMetrics : List EngineMetric)
    (dynamodbMetrics : List DynamoMetric) (m : EngineMetric)
    (hm : m ∈ engineMetrics) (hstatus : m.status ≠ MetricStatus.ACTIVE)
    (hmirror : m.uid ∈ dynamoUids dynamodbMetrics)
    (he : (engineMetrics.map EngineMetric.uid).Nodup) :
    m.uid ∈ inDynamodbButNotInRepository engineMetrics dynamodbMetrics ∧
    ∃ f ∈ orphanFinding engineMetrics dynamodbMetrics, ∃ l ∈ f.lines,
      l.uid = m.uid := by
  have hnact : m.uid ∉ activeUids engineMetrics := by
    rw [mem_activeUids]
    rintro ⟨mq, hmq, hact, huid⟩
    have hmm : mq = m := List.inj_on_of_nodup_map he hmq hm huid
    rw [hmm] at hact
    exact hstatus hact
  have hdiff :
      m.uid ∈ inDynamodbButNotInRepository engineMetrics dynamodbMetrics :=
    (mem_inDynamodbButNotInRepository engineMetrics dynamodbMetrics
      m.uid).mpr ⟨hmirror, hnact⟩
  refine ⟨hdiff, ?_⟩
  have hne :
      inDynamodbButNotInRepository engineMetrics dynamodbMetrics ≠ [] :=
    List.ne_nil_of_mem hdiff
  obtain ⟨f0, hf0, hlines⟩ :=
    orphanFinding_lines engineMetrics dynamodbMetrics hne
  obtain ⟨r, hr⟩ :=
    dictGet_isSome DynamoMetric.uid dynamodbMetrics m.uid hmirror
  refine ⟨f0, by rw [hf0]; exact List.mem_singleton.mpr rfl,
    { uid := m.uid, rest := [r.name] }, ?_, rfl⟩
  rw [hlines]
  refine List.mem_filterMap.mpr ⟨m.uid, hdiff, ?_⟩
  rw [hr]
  rfl

/-- Witness for C10: the theorem applied to a concrete mirrored uid whose
authoritative record is in ERROR (non-ACTIVE) state. -/
theorem orphan_includes_non_active_statuses_witness :
    sampleErrorEngine ∈ [sampleErrorEngine] ∧
    sampleErrorEngine.status ≠ MetricStatus.ACTIVE ∧
    sampleErrorEngine.uid ∈ dynamoUids [sampleDynamo] ∧
    (List.map EngineMetric.uid [sampleErrorEngine]).Nodup ∧
    (sampleErrorEngine.uid ∈
      inDynamodbButNotInRepository [sampleErrorEngine] [sampleDynamo] ∧
     ∃ f ∈ orphanFinding [sampleErrorEngine] [sampleDynamo], ∃ l ∈ f.lines,
       l.uid = sampleErrorEngine.uid) :=
  ⟨by decide, by decide, by decide, by decide,
    orphan_includes_non_active_statuses [sampleErrorEngine] [sampleDynamo]
      sampleErrorEngine (by decide) (by decide) (by decide) (by decide)⟩

end CheckModelConsistency
